import Mathlib

/-!
Verification of the student-CRM backend (`app/services/student_v2_service.py`,
`app/services/student_service.py`, `app/models/student_v2.py`,
`app/models/student.py`) against its natural-language specification.

The document store is modelled as in-memory association lists; Firestore
timestamps are natural numbers (seconds since the epoch); Python `datetime`
values stored under a reminder-date key are modelled by `RVal.dt day secs`
(an ISO date string plus a time-of-day in seconds), while stored strings are
`RVal.s`.  Python truthiness (`x or default`) is modelled explicitly where
the source relies on it (`pyOrStr`, `pyOrOpt`, `pyOrMap`).
-/

namespace CRM

/-- Seconds since the Unix epoch; stands in for Python `datetime` values. -/
abbrev Timestamp := Nat

/-- One day in seconds; `timedelta.days` is modelled by `/ secondsPerDay`. -/
def secondsPerDay : Nat := 86400

/-- The `StudentStatus` enum of `app/models/student_v2.py` (identical in
`app/models/student.py`). -/
inductive StudentStatus where
  | exploring
  | shortlisting
  | applying
  | submitted
deriving DecidableEq, Repr

/-- The `.value` string of each `StudentStatus` member. -/
def StudentStatus.toStr : StudentStatus → String
  | .exploring => "Exploring"
  | .shortlisting => "Shortlisting"
  | .applying => "Applying"
  | .submitted => "Submitted"

/-- Python `StudentStatus(s)`: `some` member on a valid value string, `none`
(a raised `ValueError`) otherwise. -/
def parseStatus : String → Option StudentStatus
  | "Exploring" => some .exploring
  | "Shortlisting" => some .shortlisting
  | "Applying" => some .applying
  | "Submitted" => some .submitted
  | _ => none

/-- Python `x or default` for an optional string: `None` and `""` are falsy. -/
def pyOrStr (x : Option String) (d : String) : String :=
  match x with
  | none => d
  | some s => if s = "" then d else s

/-- Python `a or b` where the carried value is always truthy (e.g. `datetime`
objects): the first present value wins. -/
def pyOrOpt {α : Type} (a b : Option α) : Option α :=
  match a with
  | some x => some x
  | none => b

/-- Python `a or b` for optional dict values: an empty dict is falsy. -/
def pyOrMap (a b : Option (List (String × String))) : Option (List (String × String)) :=
  match a with
  | some m => if m.isEmpty then b else some m
  | none => b

/-- Whether `pat` occurs at the start of `l` (helper for substring search). -/
def subAt : List Char → List Char → Bool
  | [], _ => true
  | _ :: _, [] => false
  | c :: cs, d :: ds => c == d && subAt cs ds

/-- Whether `pat` occurs somewhere in `l` (helper for substring search). -/
def hasSub : List Char → List Char → Bool
  | [], pat => pat.isEmpty
  | d :: ds, pat => subAt pat (d :: ds) || hasSub ds pat

/-- Python `needle in hay` on strings. -/
def strIn (needle hay : String) : Bool :=
  hasSub hay.toList needle.toList

/-- ASCII lowering of one character (models `str.lower()` on the data the
service compares). -/
def lowerChar (c : Char) : Char :=
  if 'A' ≤ c ∧ c ≤ 'Z' then Char.ofNat (c.toNat + 32) else c

/-- Python `s.lower()`. -/
def pyLower (s : String) : String := String.mk (s.toList.map lowerChar)

/-- A stored reminder-date value: either a Python `datetime` (`dt day secs`,
with `day` its ISO date string and `secs` its time of day) or a string. -/
inductive RVal where
  | dt (day : String) (secs : Nat)
  | s (str : String)
deriving DecidableEq, Repr

/-- The date-only part of a stored reminder-date value, for the spec-side
date-only comparison. -/
def RVal.dateStr : RVal → String
  | .dt day _ => day
  | .s str => str

/-- Whether a value is a date-only representation: a date string carries no
time part (no ISO `T` separator), while a value still carried as a
`datetime` retains a time-of-day component. -/
def RVal.isDateOnlyRepr : RVal → Bool
  | .s str => !(str.toList.contains 'T')
  | .dt _ _ => false

/-- The `TimelineEventType` enum of `app/models/student_v2.py`. -/
inductive TimelineEventType where
  | interaction
  | communication
  | note
  | task
  | reminder
deriving DecidableEq, Repr

/-- The `.value` string of each `TimelineEventType` member. -/
def TimelineEventType.value : TimelineEventType → String
  | .interaction => "interaction"
  | .communication => "communication"
  | .note => "note"
  | .task => "task"
  | .reminder => "reminder"

/-- The `StudentCreate` payload of `app/models/student_v2.py` (the legacy
`app/models/student.py` version carries the same fields). -/
structure StudentCreate where
  name : String
  email : String
  country : String
  phone : Option String
  grade : Option String
  source : Option String
  additional_data : Option (List (String × String))
  status : StudentStatus
  high_intent : Bool
  needs_essay_help : Bool
deriving DecidableEq, Repr

namespace V2

/-- A stored student document as written by `StudentV2Service.create_student`
(current-generation snake_case keys, all keys present). -/
structure StudentDoc where
  name : String
  email : String
  country : String
  phone : Option String
  grade : Option String
  source : Option String
  additional_data : Option (List (String × String))
  created_at : Timestamp
  status : String
  last_active : Timestamp
  last_contacted_at : Option Timestamp
  high_intent : Bool
  needs_essay_help : Bool
deriving DecidableEq, Repr

/-- A raw student document as read back from the store: every key of either
schema generation may be absent.  `id` is always present because the service
assigns `data["id"]` before converting. -/
structure RawStudentDoc where
  id : String
  name : Option String
  email : Option String
  country : Option String
  phone : Option String
  grade : Option String
  source : Option String
  additional_data : Option (List (String × String))
  additionalData : Option (List (String × String))
  created_at : Option Timestamp
  createdAt : Option Timestamp
  status : Option String
  last_active : Option Timestamp
  lastActive : Option Timestamp
  last_contacted_at : Option Timestamp
  lastContactedAt : Option Timestamp
  high_intent : Option Bool
  highIntent : Option Bool
  needs_essay_help : Option Bool
  needsEssayHelp : Option Bool
deriving DecidableEq, Repr

/-- The canonical `Student` record of `app/models/student_v2.py`. -/
structure Student where
  id : String
  name : String
  email : String
  country : String
  phone : Option String
  grade : Option String
  source : Option String
  additional_data : Option (List (String × String))
  created_at : Timestamp
  status : StudentStatus
  last_active : Timestamp
  last_contacted_at : Option Timestamp
  high_intent : Bool
  needs_essay_help : Bool
deriving DecidableEq, Repr

/-- `StudentV2Service._doc_to_student`: field-precedence normalization of a
raw document.  `now` stands for `datetime.utcnow()` used as the default for
missing timestamps.  Fails (like the Python `StudentStatus(...)` call) when a
non-empty status string is not a valid enum value. -/
def docToStudent (now : Timestamp) (d : RawStudentDoc) : Except String Student :=
  let created_at := (pyOrOpt d.created_at d.createdAt).getD now
  let last_active := (pyOrOpt d.last_active d.lastActive).getD now
  let last_contacted_at := pyOrOpt d.last_contacted_at d.lastContactedAt
  let high_intent := (pyOrOpt d.high_intent d.highIntent).getD false
  let needs_essay_help := (pyOrOpt d.needs_essay_help d.needsEssayHelp).getD false
  let additional_data := pyOrMap d.additional_data d.additionalData
  match parseStatus (pyOrStr d.status "Exploring") with
  | none => .error ("invalid status: " ++ pyOrStr d.status "Exploring")
  | some st =>
    .ok {
      id := d.id
      name := pyOrStr d.name "Unknown Student"
      email := pyOrStr d.email "unknown@example.com"
      country := pyOrStr d.country "Unknown"
      phone := d.phone
      grade := d.grade
      source := d.source
      additional_data := additional_data
      created_at := created_at
      status := st
      last_active := last_active
      last_contacted_at := last_contacted_at
      high_intent := high_intent
      needs_essay_help := needs_essay_help }

/-- View a freshly written document (all current-generation keys present) as
a raw document, as the service does when it converts `firestore_data`. -/
def StudentDoc.toRaw (id : String) (d : StudentDoc) : RawStudentDoc where
  id := id
  name := some d.name
  email := some d.email
  country := some d.country
  phone := d.phone
  grade := d.grade
  source := d.source
  additional_data := d.additional_data
  additionalData := none
  created_at := some d.created_at
  createdAt := none
  status := some d.status
  last_active := some d.last_active
  lastActive := none
  last_contacted_at := d.last_contacted_at
  lastContactedAt := none
  high_intent := some d.high_intent
  highIntent := none
  needs_essay_help := some d.needs_essay_help
  needsEssayHelp := none

end V2

/-- A timeline document as written into the per-student `timeline`
subcollection by the five `create_*` operations of `StudentV2Service`; the
constructor corresponds to the stored `type` discriminator string. -/
inductive TimelineDoc where
  | interaction (created_at : Timestamp) (created_by : String)
      (interaction_type description : String) (outcome : Option String)
      (follow_up_required : Bool) (follow_up_date : Option Timestamp)
  | communication (created_at : Timestamp) (created_by : String)
      (communication_type : String) (subject : Option String)
      (content direction status : String)
  | note (created_at : Timestamp) (created_by : String)
      (title content : String) (is_private : Bool)
  | task (created_at : Timestamp) (created_by : String)
      (title description : String) (due_date : Option String)
      (status priority : String)
  | reminder (created_at : Timestamp) (created_by : String)
      (title description : String) (reminder_date : RVal) (status : String)
deriving DecidableEq, Repr

/-- The stored `created_at` field of a timeline document. -/
def TimelineDoc.created_at : TimelineDoc → Timestamp
  | .interaction ca _ _ _ _ _ _ => ca
  | .communication ca _ _ _ _ _ _ => ca
  | .note ca _ _ _ _ => ca
  | .task ca _ _ _ _ _ _ => ca
  | .reminder ca _ _ _ _ _ => ca

/-- The stored `type` discriminator string of a timeline document. -/
def TimelineDoc.typeStr : TimelineDoc → String
  | .interaction _ _ _ _ _ _ _ => "interaction"
  | .communication _ _ _ _ _ _ _ => "communication"
  | .note _ _ _ _ _ => "note"
  | .task _ _ _ _ _ _ _ => "task"
  | .reminder _ _ _ _ _ _ => "reminder"

/-- The `Interaction` record of `app/models/student_v2.py`. -/
structure InteractionM where
  id : String
  student_id : String
  type : String
  created_at : Timestamp
  created_by : String
  interaction_type : String
  description : String
  outcome : Option String
  follow_up_required : Bool
  follow_up_date : Option Timestamp
deriving DecidableEq, Repr

/-- The `Communication` record of `app/models/student_v2.py`. -/
structure CommunicationM where
  id : String
  student_id : String
  type : String
  created_at : Timestamp
  created_by : String
  communication_type : String
  subject : Option String
  content : String
  direction : String
  status : String
deriving DecidableEq, Repr

/-- The `Note` record of `app/models/student_v2.py`. -/
structure NoteM where
  id : String
  student_id : String
  type : String
  created_at : Timestamp
  created_by : String
  title : String
  content : String
  is_private : Bool
deriving DecidableEq, Repr

/-- The `Task` record of `app/models/student_v2.py`. -/
structure TaskM where
  id : String
  student_id : String
  type : String
  created_at : Timestamp
  created_by : String
  title : String
  description : String
  due_date : Option String
  status : String
  priority : String
  student_name : Option String
deriving DecidableEq, Repr

/-- The `Reminder` record of `app/models/student_v2.py`; `reminder_date`
keeps the shape produced by `_doc_to_reminder` (date string or passed-through
stored value). -/
structure ReminderM where
  id : String
  student_id : String
  type : String
  created_at : Timestamp
  created_by : String
  title : String
  description : String
  reminder_date : RVal
  status : String
deriving DecidableEq, Repr

/-- The union type returned by `get_timeline_events`. -/
inductive Event where
  | interaction (i : InteractionM)
  | communication (c : CommunicationM)
  | note (n : NoteM)
  | task (t : TaskM)
  | reminder (r : ReminderM)
deriving DecidableEq, Repr

/-- The `created_at` field of an event, used for chronological ordering. -/
def Event.created_at : Event → Timestamp
  | .interaction i => i.created_at
  | .communication c => c.created_at
  | .note n => n.created_at
  | .task t => t.created_at
  | .reminder r => r.created_at

/-- The `type` field of an event. -/
def Event.typeStr : Event → String
  | .interaction i => i.type
  | .communication c => c.type
  | .note n => n.type
  | .task t => t.type
  | .reminder r => r.type

/-- The `reminder_date` branch of `StudentV2Service._doc_to_reminder` for a
present `reminder_date` key: a `datetime` is converted to its date string
(`.date().isoformat()`), a string is kept as is. -/
def rvalNormalize : RVal → RVal
  | .dt day _ => .s day
  | .s str => .s str

/-- Dispatch of `get_timeline_events` to the `_doc_to_*` converter matching
the document's `type`.  The service sets `data["id"]` and
`data["student_id"]` before converting. -/
def docToEvent (sid eid : String) : TimelineDoc → Event
  | .interaction ca cb it desc out fur fud =>
    Event.interaction
      { id := eid
        student_id := sid
        type := "interaction"
        created_at := ca
        created_by := cb
        interaction_type := it
        description := desc
        outcome := out
        follow_up_required := fur
        follow_up_date := fud }
  | .communication ca cb ct subj content dir st =>
    Event.communication
      { id := eid
        student_id := sid
        type := "communication"
        created_at := ca
        created_by := cb
        communication_type := ct
        subject := subj
        content := content
        direction := dir
        status := st }
  | .note ca cb title content priv =>
    Event.note
      { id := eid
        student_id := sid
        type := "note"
        created_at := ca
        created_by := cb
        title := title
        content := content
        is_private := priv }
  | .task ca cb title desc due st prio =>
    Event.task
      { id := eid
        student_id := sid
        type := "task"
        created_at := ca
        created_by := cb
        title := title
        description := desc
        due_date := due
        status := st
        priority := prio
        student_name := none }
  | .reminder ca cb title desc rd st =>
    Event.reminder
      { id := eid
        student_id := sid
        type := "reminder"
        created_at := ca
        created_by := cb
        title := title
        description := desc
        reminder_date := rvalNormalize rd
        status := st }

namespace V2

/-- The modelled slice of the document store: the `students` collection and
the per-student `timeline` subcollections, flattened to
`(student_id, event_id, doc)` triples. -/
structure DB where
  students : List (String × StudentDoc)
  timelines : List (String × String × TimelineDoc)
deriving DecidableEq, Repr

/-- Errors surfaced by the services: the duplicate-email `ValueError` and the
generic wrapped failure. -/
inductive CreateErr where
  | duplicateEmail
  | opFailed (msg : String)
deriving DecidableEq, Repr

/-- The `firestore_data` document built by `StudentV2Service.create_student`. -/
def mkStudentDoc (now : Timestamp) (c : StudentCreate) : StudentDoc where
  name := c.name
  email := c.email
  country := c.country
  phone := c.phone
  grade := c.grade
  source := c.source
  additional_data := c.additional_data
  created_at := now
  status := c.status.toStr
  last_active := now
  last_contacted_at := none
  high_intent := c.high_intent
  needs_essay_help := c.needs_essay_help

/-- `StudentV2Service.get_student`: point lookup plus normalization; any
conversion failure is caught and turned into `None`. -/
def get_student (db : DB) (now : Timestamp) (sid : String) : Option Student :=
  match db.students.find? (fun p => p.1 == sid) with
  | none => none
  | some (_, doc) => (docToStudent now (doc.toRaw sid)).toOption

/-- `StudentV2Service.create_student`: duplicate-email check (exact match on
the stored `email` field), then persist with `created_at = last_active =
now`, `last_contacted_at = None`, and return the converted record with the
assigned id.  On the duplicate error the store is left unchanged. -/
def create_student (db : DB) (now : Timestamp) (newId : String)
    (c : StudentCreate) : Except CreateErr Student × DB :=
  if db.students.any (fun p => p.2.email == c.email) then
    (.error .duplicateEmail, db)
  else
    let doc := mkStudentDoc now c
    let db' : DB := { db with students := db.students ++ [(newId, doc)] }
    match docToStudent now (doc.toRaw newId) with
    | .ok st => (.ok st, db')
    | .error e => (.error (.opFailed e), db')

/-- The `StudentUpdate` patch of `app/models/student_v2.py`: only profile
fields are present; core identity fields cannot appear in a patch. -/
structure StudentUpdate where
  status : Option StudentStatus
  last_active : Option Timestamp
  last_contacted_at : Option Timestamp
  high_intent : Option Bool
  needs_essay_help : Option Bool
  additional_data : Option (List (String × String))
deriving DecidableEq, Repr

/-- Whether the built `update_data` dict of `update_student` is empty
(no patch field present). -/
def StudentUpdate.isEmptyPatch (u : StudentUpdate) : Bool :=
  u.status.isNone && u.last_active.isNone && u.last_contacted_at.isNone &&
    u.high_intent.isNone && u.needs_essay_help.isNone &&
    u.additional_data.isNone

/-- The Firestore partial-merge `doc_ref.update(update_data)`: each field
present in the patch overwrites the stored value, absent fields are left
untouched. -/
def applyUpdate (d : StudentDoc) (u : StudentUpdate) : StudentDoc :=
  { d with
    status := match u.status with | some s => s.toStr | none => d.status
    last_active := u.last_active.getD d.last_active
    last_contacted_at :=
      match u.last_contacted_at with
      | some t => some t
      | none => d.last_contacted_at
    high_intent := u.high_intent.getD d.high_intent
    needs_essay_help := u.needs_essay_help.getD d.needs_essay_help
    additional_data :=
      match u.additional_data with
      | some m => some m
      | none => d.additional_data }

/-- `StudentV2Service.update_student`: `None` when the student does not
exist; with an empty patch, no write happens and the current record is
returned; otherwise the present patch fields are merged and the fresh record
is read back.  `now` is the call time (the v2 code never stamps it itself). -/
def update_student (db : DB) (now : Timestamp) (sid : String)
    (u : StudentUpdate) : Option Student × DB :=
  match db.students.find? (fun p => p.1 == sid) with
  | none => (none, db)
  | some (_, doc) =>
    if u.isEmptyPatch then (get_student db now sid, db)
    else
      let doc' := applyUpdate doc u
      let db' : DB := { db with
        students := db.students.map
          (fun p => if p.1 == sid then (p.1, doc') else p) }
      (get_student db' now sid, db')

/-- `StudentV2Service.delete_student`: first delete every timeline document
of the student, then remove the student document; `false` (no error) when the
student document does not exist. -/
def delete_student (db : DB) (sid : String) : Bool × DB :=
  let db1 : DB := { db with
    timelines := db.timelines.filter (fun e => !(e.1 == sid)) }
  match db1.students.find? (fun p => p.1 == sid) with
  | none => (false, db1)
  | some _ =>
    (true, { db1 with
      students := db1.students.filter (fun p => !(p.1 == sid)) })

/-- The `type` filter of `get_timeline_events`: skip a document when a filter
is supplied and the stored `type` differs from the filter's value. -/
def typeMatches (filt : Option TimelineEventType) (d : TimelineDoc) : Bool :=
  match filt with
  | none => true
  | some t => d.typeStr == t.value

/-- Descending `created_at` order on stored timeline triples, as requested
from the store by `order_by("created_at", direction=DESCENDING)`. -/
def tlGE (a b : String × String × TimelineDoc) : Prop :=
  b.2.2.created_at ≤ a.2.2.created_at

instance : DecidableRel tlGE :=
  fun a b => Nat.decLe b.2.2.created_at a.2.2.created_at

instance : IsTotal (String × String × TimelineDoc) tlGE :=
  ⟨fun a b => Nat.le_total b.2.2.created_at a.2.2.created_at⟩

instance : IsTrans (String × String × TimelineDoc) tlGE :=
  ⟨fun _ _ _ hab hbc => Nat.le_trans hbc hab⟩

/-- Descending `created_at` order on converted events, used by the in-memory
sorts (`communications.sort(key=..., reverse=True)`). -/
def evGE (a b : Event) : Prop := b.created_at ≤ a.created_at

instance : DecidableRel evGE :=
  fun a b => Nat.decLe b.created_at a.created_at

instance : IsTotal Event evGE := ⟨fun a b => Nat.le_total b.created_at a.created_at⟩

instance : IsTrans Event evGE := ⟨fun _ _ _ hab hbc => Nat.le_trans hbc hab⟩

/-- `StudentV2Service.get_timeline_events`: stream the student's timeline in
store-side descending `created_at` order, skip documents not matching the
optional type filter, and convert each remaining document. -/
def get_timeline_events (db : DB) (sid : String)
    (filt : Option TimelineEventType) : List Event :=
  let docs := List.insertionSort tlGE (db.timelines.filter (fun e => e.1 == sid))
  (docs.filter (fun e => typeMatches filt e.2.2)).map
    (fun e => docToEvent sid e.2.1 e.2.2)

/-- `StudentV2Service.get_student_communications`: equality-filtered fetch
(`where("type", "==", "communication")`, no store-side ordering), conversion,
then the required in-memory sort by `created_at` descending. -/
def get_student_communications (db : DB) (sid : String) : List Event :=
  let docs := db.timelines.filter
    (fun e => e.1 == sid && e.2.2.typeStr == "communication")
  List.insertionSort evGE (docs.map (fun e => docToEvent sid e.2.1 e.2.2))

/-- The `InteractionCreate` payload of `app/models/student_v2.py`. -/
structure InteractionCreate where
  interaction_type : String
  description : String
  outcome : Option String
  follow_up_required : Bool
  follow_up_date : Option Timestamp
deriving DecidableEq, Repr

/-- `StudentV2Service.create_interaction`: append the interaction document
(with `created_at = now`, `created_by = "CRM Team"`) to the student's
timeline and return the converted record with the assigned id. -/
def create_interaction (db : DB) (now : Timestamp) (sid eid : String)
    (c : InteractionCreate) : InteractionM × DB :=
  let doc := TimelineDoc.interaction now "CRM Team" c.interaction_type
    c.description c.outcome c.follow_up_required c.follow_up_date
  ({ id := eid, student_id := sid, type := "interaction", created_at := now,
     created_by := "CRM Team", interaction_type := c.interaction_type,
     description := c.description, outcome := c.outcome,
     follow_up_required := c.follow_up_required,
     follow_up_date := c.follow_up_date },
   { db with timelines := db.timelines ++ [(sid, eid, doc)] })

/-- A raw reminder document as consumed by `_doc_to_reminder`: either schema
generation for the date (`reminder_date` or legacy `due`) and for the
attribution/timestamp keys.  `id` and `student_id` are set by the caller
before conversion, and `title` is read unconditionally. -/
structure RawReminderDoc where
  id : String
  student_id : String
  title : String
  description : Option String
  status : Option String
  created_at : Option Timestamp
  createdAt : Option Timestamp
  created_by : Option String
  createdBy : Option String
  reminder_date : Option RVal
  due : Option RVal
deriving DecidableEq, Repr

/-- `StudentV2Service._doc_to_reminder`: prefer the `reminder_date` key (a
`datetime` is normalized to its date string, a string is kept as is), fall
back to the legacy `due` value unchanged, then to the fixed fallback date;
apply the field-precedence defaults for the remaining fields.  `now` stands
for `datetime.utcnow()`. -/
def docToReminder (now : Timestamp) (d : RawReminderDoc) : ReminderM :=
  let rd : RVal :=
    match d.reminder_date with
    | some v => rvalNormalize v
    | none =>
      match d.due with
      | some v => v
      | none => .s "2024-01-01"
  { id := d.id
    student_id := d.student_id
    type := "reminder"
    created_at := (pyOrOpt d.created_at d.createdAt).getD now
    created_by :=
      match d.created_by with
      | some s => if s = "" then d.createdBy.getD "CRM Team" else s
      | none => d.createdBy.getD "CRM Team"
    title := d.title
    description := d.description.getD ""
    reminder_date := rd
    status := d.status.getD "pending" }

/-- The dashboard-statistics payload of `get_dashboard_stats` (the
percentage-change analytics block, computed on floats from the same counts
and hardcoded baselines, is outside the modelled scope). -/
structure DashboardStats where
  total_students : Nat
  status_breakdown : List (String × Nat)
  country_breakdown : List (String × Nat)
  high_intent_count : Nat
  needs_essay_help_count : Nat
  applications_in_progress : Nat
  total_communications : Nat
  communications_this_month : Nat
  total_interactions : Nat
  active_students_this_week : Nat
  upcoming_reminders : Nat
  overdue_reminders : Nat
  total_reminders : Nat
deriving DecidableEq, Repr

/-- Increment a tally map entry (`counts.get(key, 0) + 1` on a dict that
preserves insertion order). -/
def tallyAdd (m : List (String × Nat)) (k : String) : List (String × Nat) :=
  match m with
  | [] => [(k, 1)]
  | (k', n) :: rest =>
    if k' == k then (k', n + 1) :: rest else (k', n) :: tallyAdd rest k

/-- `StudentV2Service.get_dashboard_stats` over the fetched students and
standalone reminders.  The source computes the per-student counts in one
loop; `upcoming_reminders` and `overdue_reminders` are the lengths of the
two lists the source leaves empty ("Reminder stats (simplified)"), and the
communication/interaction counts are the hardcoded placeholder values. -/
def get_dashboard_stats (students : List Student) (reminders : List ReminderM) :
    DashboardStats :=
  let upcoming : List ReminderM := []
  let overdue : List ReminderM := []
  { total_students := students.length
    status_breakdown :=
      students.foldl (fun m s => tallyAdd m s.status.toStr) []
    country_breakdown :=
      students.foldl (fun m s => tallyAdd m s.country) []
    high_intent_count := students.countP (fun s => s.high_intent)
    needs_essay_help_count := students.countP (fun s => s.needs_essay_help)
    applications_in_progress :=
      students.countP
        (fun s => s.status.toStr == "Applying" || s.status.toStr == "Submitted")
    total_communications := 8
    communications_this_month := 6
    total_interactions := 791
    active_students_this_week := 21
    upcoming_reminders := upcoming.length
    overdue_reminders := overdue.length
    total_reminders := reminders.length }

/-- Lexicographic order on character lists by code point (equal-length ISO
date strings compare correctly this way). -/
def charsLt : List Char → List Char → Bool
  | [], [] => false
  | [], _ :: _ => true
  | _ :: _, [] => false
  | c :: cs, d :: ds =>
    c.toNat < d.toNat || (c.toNat == d.toNat && charsLt cs ds)

/-- Lexicographic order on date strings. -/
def dateLt (a b : String) : Bool := charsLt a.toList b.toList

/-- Modelled from the spec's words, for comparison with the implementation:
a standalone reminder is overdue iff its date-only reminder date is strictly
before today. -/
def specIsOverdue (today : String) (r : ReminderM) : Bool :=
  dateLt r.reminder_date.dateStr today

/-- Modelled from the spec's words: the count of overdue standalone
reminders, split at today with date-only comparison. -/
def specOverdueCount (today : String) (rs : List ReminderM) : Nat :=
  rs.countP (specIsOverdue today)

/-- Modelled from the spec's words: the count of upcoming standalone
reminders (not overdue). -/
def specUpcomingCount (today : String) (rs : List ReminderM) : Nat :=
  rs.countP (fun r => !specIsOverdue today r)

end V2

namespace Legacy

/-- A stored student document as written by `StudentService.create_student`
(legacy camelCase keys, all keys present). -/
structure StudentDoc where
  name : String
  email : String
  phone : Option String
  grade : Option String
  country : String
  status : String
  highIntent : Bool
  needsEssayHelp : Bool
  source : Option String
  additionalData : Option (List (String × String))
  createdAt : Timestamp
  lastActive : Timestamp
  lastContactedAt : Option Timestamp
deriving DecidableEq, Repr

/-- The canonical `Student` record of `app/models/student.py`. -/
structure Student where
  id : String
  name : String
  email : String
  phone : Option String
  grade : Option String
  country : String
  status : StudentStatus
  high_intent : Bool
  needs_essay_help : Bool
  source : Option String
  additional_data : Option (List (String × String))
  created_at : Timestamp
  last_active : Timestamp
  last_contacted_at : Option Timestamp
deriving DecidableEq, Repr

/-- `StudentService._doc_to_student` on a fully-written document: the
mandatory keys are read directly and `status` is parsed by the pydantic
model (`none` models the raised validation error on a bad status string). -/
def doc_to_student (id : String) (d : StudentDoc) : Option Student :=
  (parseStatus d.status).map fun st =>
    { id := id
      name := d.name
      email := d.email
      phone := d.phone
      grade := d.grade
      country := d.country
      status := st
      high_intent := d.highIntent
      needs_essay_help := d.needsEssayHelp
      source := d.source
      additional_data := d.additionalData
      created_at := d.createdAt
      last_active := d.lastActive
      last_contacted_at := d.lastContactedAt }

/-- The `firestore_data` document built by `StudentService.create_student`. -/
def mkStudentDoc (now : Timestamp) (c : StudentCreate) : StudentDoc where
  name := c.name
  email := c.email
  phone := c.phone
  grade := c.grade
  country := c.country
  status := c.status.toStr
  highIntent := c.high_intent
  needsEssayHelp := c.needs_essay_help
  source := c.source
  additionalData := c.additional_data
  createdAt := now
  lastActive := now
  lastContactedAt := none

/-- `StudentService.create_student`: duplicate-email check (exact match on
the stored `email` field), then persist with `createdAt = lastActive = now`,
`lastContactedAt = None`, and return the converted record with the assigned
id.  On the duplicate error the store is left unchanged. -/
def create_student (db : List (String × StudentDoc)) (now : Timestamp)
    (newId : String) (c : StudentCreate) :
    Except V2.CreateErr Student × List (String × StudentDoc) :=
  if db.any (fun p => p.2.email == c.email) then
    (.error .duplicateEmail, db)
  else
    let doc := mkStudentDoc now c
    let db' := db ++ [(newId, doc)]
    match doc_to_student newId doc with
    | some st => (.ok st, db')
    | none => (.error (.opFailed "invalid status"), db')

/-- The `StudentSearchRequest` payload of `app/models/student.py`. -/
structure SearchRequest where
  query : String
  limit : Nat
  offset : Nat
  status_filter : Option StudentStatus
  country_filter : Option String
  high_intent_only : Bool
  needs_essay_help_only : Bool
  not_contacted_7_days : Bool
deriving DecidableEq, Repr

/-- The `StudentSearchResponse` payload of `app/models/student.py`. -/
structure SearchResponse where
  students : List Student
  total : Nat
  page : Nat
  limit : Nat
  has_more : Bool
deriving DecidableEq, Repr

/-- The free-text pass of `search_students`: the lowered query must occur in
the lowered name, email or country. -/
def textMatches (sq : String) (s : Student) : Bool :=
  strIn sq (pyLower s.name) || strIn sq (pyLower s.email) ||
    strIn sq (pyLower s.country)

/-- The `not_contacted_7_days` predicate of `search_students`: a student
with no `last_contacted_at` passes; otherwise the student is skipped when
the whole days elapsed since last contact (`timedelta.days`) are at most 7. -/
def notContactedOk (now : Timestamp) (lc : Option Timestamp) : Bool :=
  match lc with
  | none => true
  | some t => !(decide ((now - t) / secondsPerDay ≤ 7))

/-- The additional-filter pass of `search_students`: the conjunction of the
status equality, country substring, flag, and contact-gap filters (a `None`
or empty filter value disables its clause, matching Python truthiness). -/
def addFilterOk (now : Timestamp) (req : SearchRequest) (s : Student) : Bool :=
  (match req.status_filter with
   | none => true
   | some st => decide (s.status = st)) &&
  (match req.country_filter with
   | none => true
   | some c => if c = "" then true else strIn (pyLower c) (pyLower s.country)) &&
  (!req.high_intent_only || s.high_intent) &&
  (!req.needs_essay_help_only || s.needs_essay_help) &&
  (!req.not_contacted_7_days || notContactedOk now s.last_contacted_at)

/-- `StudentService.search_students` over the converted corpus: the in-memory
free-text pass, then the additional-filter pass, then `offset`/`limit`
slicing; `total` is the pre-pagination match count and `has_more` compares
`offset + limit` against it. -/
def search_students (now : Timestamp) (corpus : List Student)
    (req : SearchRequest) : SearchResponse :=
  let sq := pyLower req.query
  let all := corpus.filter (textMatches sq)
  let filtered := all.filter (addFilterOk now req)
  let total := filtered.length
  let paginated := (filtered.drop req.offset).take req.limit
  { students := paginated
    total := total
    page := req.offset / req.limit + 1
    limit := req.limit
    has_more := decide (req.offset + req.limit < total) }

end Legacy

/-- The record a successful `StudentV2Service.create_student` returns
(conversion of the freshly written document). -/
def V2.createdStudent (now : Timestamp) (newId : String) (c : StudentCreate) :
    V2.Student where
  id := newId
  name := c.name
  email := c.email
  country := c.country
  phone := c.phone
  grade := c.grade
  source := c.source
  additional_data := pyOrMap c.additional_data none
  created_at := now
  status := c.status
  last_active := now
  last_contacted_at := none
  high_intent := c.high_intent
  needs_essay_help := c.needs_essay_help

/-- The record a successful legacy `StudentService.create_student` returns. -/
def Legacy.createdStudent (now : Timestamp) (newId : String)
    (c : StudentCreate) : Legacy.Student where
  id := newId
  name := c.name
  email := c.email
  phone := c.phone
  grade := c.grade
  country := c.country
  status := c.status
  high_intent := c.high_intent
  needs_essay_help := c.needs_essay_help
  source := c.source
  additional_data := c.additional_data
  created_at := now
  last_active := now
  last_contacted_at := none

/-! Concrete fixtures used by the witness and counterexample theorems. -/

/-- A stored v2 student document used by the fixtures. -/
def fixDoc : V2.StudentDoc where
  name := "Maria Silva"
  email := "maria@example.com"
  country := "Brazil"
  phone := none
  grade := none
  source := none
  additional_data := none
  created_at := 10
  status := "Exploring"
  last_active := 100
  last_contacted_at := none
  high_intent := false
  needs_essay_help := false

/-- A v2 store holding one student with email `maria@example.com`. -/
def fixDb : V2.DB where
  students := [("s1", fixDoc)]
  timelines := []

/-- A create payload reusing the already-stored email. -/
def fixDupCreate : StudentCreate where
  name := "Other Maria"
  email := "maria@example.com"
  country := "Portugal"
  phone := none
  grade := none
  source := none
  additional_data := none
  status := .applying
  high_intent := true
  needs_essay_help := false

/-- A create payload with a fresh email. -/
def fixFreshCreate : StudentCreate where
  name := "Sarah Jones"
  email := "sarah@example.com"
  country := "UK"
  phone := none
  grade := none
  source := none
  additional_data := none
  status := .exploring
  high_intent := false
  needs_essay_help := true

/-- A legacy store holding one student with email `maria@example.com`. -/
def fixLegacyDb : List (String × Legacy.StudentDoc) :=
  [("s1", Legacy.mkStudentDoc 10 fixDupCreate)]

/-- An update patch carrying only `status` (the C3 scenario). -/
def fixStatusPatch : V2.StudentUpdate where
  status := some .applying
  last_active := none
  last_contacted_at := none
  high_intent := none
  needs_essay_help := none
  additional_data := none

/-- A standalone reminder whose date-only date is strictly before
`2024-06-01`. -/
def fixOverdueRem : ReminderM where
  id := "r1"
  student_id := "standalone"
  type := "reminder"
  created_at := 5
  created_by := "CRM Team"
  title := "Call back"
  description := ""
  reminder_date := .s "2024-01-01"
  status := "pending"

/-- A standalone reminder whose date-only date is not before `2024-06-01`
(upcoming at that date). -/
def fixUpcomingRem : ReminderM :=
  { fixOverdueRem with id := "r2", reminder_date := .s "2025-01-01" }

/-- A raw v2 student document with every field populated and a valid
status. -/
def fixRawStudent : V2.RawStudentDoc where
  id := "x1"
  name := some "Ana"
  email := some "ana@example.com"
  country := some "Spain"
  phone := none
  grade := none
  source := none
  additional_data := none
  additionalData := none
  created_at := some 1
  createdAt := none
  status := some "Exploring"
  last_active := some 1
  lastActive := none
  last_contacted_at := none
  lastContactedAt := none
  high_intent := none
  highIntent := none
  needs_essay_help := none
  needsEssayHelp := none

/-- The raw student document with the unparseable status string `"Closed"`. -/
def fixRawStudentBadStatus : V2.RawStudentDoc :=
  { fixRawStudent with status := some "Closed" }

/-- The raw student document with no stored status. -/
def fixRawStudentNoStatus : V2.RawStudentDoc :=
  { fixRawStudent with status := none }

/-- A raw reminder document with neither date key. -/
def fixRawRem : V2.RawReminderDoc where
  id := "r1"
  student_id := "standalone"
  title := "Call back"
  description := none
  status := none
  created_at := some 5
  createdAt := none
  created_by := none
  createdBy := none
  reminder_date := none
  due := none

/-- A raw reminder whose `reminder_date` is a stored string carrying a time
component. -/
def fixRemStrTime : V2.RawReminderDoc :=
  { fixRawRem with reminder_date := some (.s "2024-06-01T10:30:00") }

/-- A raw reminder with only the legacy `due` key, holding a `datetime` at
10:30 (37800 seconds into the day). -/
def fixRemDueDt : V2.RawReminderDoc :=
  { fixRawRem with due := some (.dt "2024-01-01" 37800) }

/-- A raw reminder whose `reminder_date` is a stored `datetime`. -/
def fixRemDt : V2.RawReminderDoc :=
  { fixRawRem with reminder_date := some (.dt "2024-03-05" 3600) }

/-- The corpus student `Maria` of the search property. -/
def fixMaria : Legacy.Student where
  id := "st1"
  name := "Maria"
  email := "maria@example.com"
  phone := none
  grade := none
  country := "Brazil"
  status := .exploring
  high_intent := false
  needs_essay_help := false
  source := none
  additional_data := none
  created_at := 0
  last_active := 0
  last_contacted_at := none

/-- The corpus student `Sarah` of the search property. -/
def fixSarah : Legacy.Student :=
  { fixMaria with
    id := "st2"
    name := "Sarah"
    email := "sarah@example.com"
    country := "UK" }

/-- The corpus student `Hiroshi` of the search property: none of name,
email or country contains the letter `a`. -/
def fixHiroshi : Legacy.Student :=
  { fixMaria with
    id := "st3"
    name := "Hiroshi"
    email := "hiroshi@school.jp"
    country := "Kyoto" }

/-- The query-only search request `search("a", {})`. -/
def fixSearchReq : Legacy.SearchRequest where
  query := "a"
  limit := 20
  offset := 0
  status_filter := none
  country_filter := none
  high_intent_only := false
  needs_essay_help_only := false
  not_contacted_7_days := false

/-- The call time of the contact-gap fixtures: day 10. -/
def fixNow : Timestamp := 10 * secondsPerDay

/-- A student never contacted. -/
def fixNeverContacted : Legacy.Student :=
  { fixMaria with id := "n1", name := "Ana", email := "ana@example.com" }

/-- A student last contacted 8 days before `fixNow`. -/
def fixContacted8d : Legacy.Student :=
  { fixMaria with
    id := "n2"
    name := "Bart"
    email := "bart@example.com"
    last_contacted_at := some (2 * secondsPerDay) }

/-- A student last contacted 3 days before `fixNow`. -/
def fixContacted3d : Legacy.Student :=
  { fixMaria with
    id := "n3"
    name := "Carla"
    email := "carla@example.com"
    last_contacted_at := some (7 * secondsPerDay) }

/-- The search request with only the `not_contacted_7_days` filter set. -/
def fixNotContactedReq : Legacy.SearchRequest :=
  { fixSearchReq with not_contacted_7_days := true }

/-- An interaction payload with a follow-up date, for the round-trip
property. -/
def fixInteractionCreate : V2.InteractionCreate where
  interaction_type := "call"
  description := "intro call"
  outcome := none
  follow_up_required := true
  follow_up_date := some 777

/-! Helper lemmas shared by the claim theorems. -/

theorem parseStatus_toStr (s : StudentStatus) : parseStatus s.toStr = some s := by
  cases s <;> rfl

theorem toStr_ne_empty (s : StudentStatus) : ¬(s.toStr = "") := by
  cases s <;> simp [StudentStatus.toStr]

theorem docToEvent_created_at (sid eid : String) (d : TimelineDoc) :
    (docToEvent sid eid d).created_at = d.created_at := by
  cases d <;> rfl

/-- Converting the document `create_student` just wrote yields the full
record (given the pydantic-validated non-empty identity strings). -/
theorem docToStudent_mk (now : Timestamp) (newId : String) (c : StudentCreate)
    (h1 : ¬(c.name = "")) (h2 : ¬(c.email = "")) (h3 : ¬(c.country = "")) :
    V2.docToStudent now ((V2.mkStudentDoc now c).toRaw newId)
      = .ok (V2.createdStudent now newId c) := by
  simp [V2.docToStudent, V2.mkStudentDoc, V2.StudentDoc.toRaw, pyOrStr,
    pyOrOpt, h1, h2, h3, parseStatus_toStr, toStr_ne_empty,
    V2.createdStudent]

/-- Converting the document the legacy `create_student` just wrote yields
the full record. -/
theorem legacy_doc_to_student_mk (now : Timestamp) (newId : String)
    (c : StudentCreate) :
    Legacy.doc_to_student newId (Legacy.mkStudentDoc now c)
      = some (Legacy.createdStudent now newId c) := by
  simp [Legacy.doc_to_student, Legacy.mkStudentDoc, parseStatus_toStr,
    Legacy.createdStudent]

/-! Claim theorems. -/

/-- C1: creating a student whose email exactly matches a stored student's
email fails with the duplicate-email error and leaves the store unchanged;
creating with an email not present succeeds and returns the full record with
the assigned id, `created_at = last_active = now` and
`last_contacted_at = None` — in both `StudentV2Service.create_student` and
the legacy `StudentService.create_student`. -/
theorem create_student_email_uniqueness (db : V2.DB)
    (ldb : List (String × Legacy.StudentDoc)) (now : Timestamp)
    (newId : String) (c : StudentCreate) (h1 : ¬(c.name = ""))
    (h2 : ¬(c.email = "")) (h3 : ¬(c.country = "")) :
    ((∃ p ∈ db.students, p.2.email = c.email) →
      V2.create_student db now newId c = (.error .duplicateEmail, db)) ∧
    ((¬∃ p ∈ db.students, p.2.email = c.email) →
      ∃ st, (V2.create_student db now newId c).1 = .ok st ∧
        st.id = newId ∧ st.created_at = now ∧ st.last_active = now ∧
        st.last_contacted_at = none ∧ st.name = c.name ∧
        st.email = c.email ∧ st.country = c.country ∧ st.status = c.status ∧
        (V2.create_student db now newId c).2.students
          = db.students ++ [(newId, V2.mkStudentDoc now c)]) ∧
    ((∃ p ∈ ldb, p.2.email = c.email) →
      Legacy.create_student ldb now newId c = (.error .duplicateEmail, ldb)) ∧
    ((¬∃ p ∈ ldb, p.2.email = c.email) →
      ∃ st, (Legacy.create_student ldb now newId c).1 = .ok st ∧
        st.id = newId ∧ st.created_at = now ∧ st.last_active = now ∧
        st.last_contacted_at = none ∧ st.name = c.name ∧
        st.email = c.email ∧ st.country = c.country ∧ st.status = c.status ∧
        (Legacy.create_student ldb now newId c).2
          = ldb ++ [(newId, Legacy.mkStudentDoc now c)]) := by
  refine ⟨?_, ?_, ?_, ?_⟩
  · intro hdup
    have hany : db.students.any (fun p => p.2.email == c.email) = true := by
      rw [List.any_eq_true]
      obtain ⟨p, hp, he⟩ := hdup
      exact ⟨p, hp, by simpa using he⟩
    simp [V2.create_student, hany]
  · intro hfresh
    have hany : db.students.any (fun p => p.2.email == c.email) = false := by
      rw [Bool.eq_false_iff]
      intro hc
      rw [List.any_eq_true] at hc
      obtain ⟨p, hp, he⟩ := hc
      exact hfresh ⟨p, hp, by simpa using he⟩
    refine ⟨V2.createdStudent now newId c, ?_, rfl, rfl, rfl, rfl, rfl, rfl,
      rfl, rfl, ?_⟩ <;>
      simp [V2.create_student, hany, docToStudent_mk now newId c h1 h2 h3]
  · intro hdup
    have hany : ldb.any (fun p => p.2.email == c.email) = true := by
      rw [List.any_eq_true]
      obtain ⟨p, hp, he⟩ := hdup
      exact ⟨p, hp, by simpa using he⟩
    simp [Legacy.create_student, hany]
  · intro hfresh
    have hany : ldb.any (fun p => p.2.email == c.email) = false := by
      rw [Bool.eq_false_iff]
      intro hc
      rw [List.any_eq_true] at hc
      obtain ⟨p, hp, he⟩ := hc
      exact hfresh ⟨p, hp, by simpa using he⟩
    refine ⟨Legacy.createdStudent now newId c, ?_, rfl, rfl, rfl, rfl, rfl,
      rfl, rfl, rfl, ?_⟩ <;>
      simp [Legacy.create_student, hany, legacy_doc_to_student_mk]

/-- Witness for C1: on the concrete store holding `maria@example.com`,
creating with the same email fails and leaves the store unchanged, while a
fresh email succeeds with the stamped timestamps. -/
theorem create_student_email_uniqueness_witness :
    V2.create_student fixDb 50 "s2" fixDupCreate
      = (.error .duplicateEmail, fixDb) ∧
    (∃ st, (V2.create_student fixDb 50 "s2" fixFreshCreate).1 = .ok st ∧
      st.id = "s2" ∧ st.created_at = 50 ∧ st.last_active = 50 ∧
      st.last_contacted_at = none) := by
  constructor
  · exact (create_student_email_uniqueness fixDb fixLegacyDb 50 "s2"
      fixDupCreate (by decide) (by decide) (by decide)).1
      ⟨("s1", fixDoc), by decide, rfl⟩
  · obtain ⟨st, hok, hid, hca, hla, hlc, -, -, -, -, -⟩ :=
      (create_student_email_uniqueness fixDb fixLegacyDb 50 "s2"
        fixFreshCreate (by decide) (by decide) (by decide)).2.1 (by decide)
    exact ⟨st, hok, hid, hca, hla, hlc⟩

/-- C2: `delete_student` removes every timeline event of the student before
touching the student document, so the student's timeline reads back empty
afterwards for every type filter; it returns `true` exactly when the student
document existed (so `false`, with no error, for a missing student, leaving
the student collection unchanged); and it removes only that student's
document and timeline entries. -/
theorem delete_student_cascades (db : V2.DB) (sid : String) :
    (∀ filt, V2.get_timeline_events (V2.delete_student db sid).2 sid filt
      = []) ∧
    ((V2.delete_student db sid).1 = db.students.any (fun p => p.1 == sid)) ∧
    ((V2.delete_student db sid).2.timelines
      = db.timelines.filter (fun e => !(e.1 == sid))) ∧
    ((V2.delete_student db sid).2.students
      = if db.students.any (fun p => p.1 == sid)
        then db.students.filter (fun p => !(p.1 == sid))
        else db.students) := by
  have hdel2 : (V2.delete_student db sid).2.timelines
      = db.timelines.filter (fun e => !(e.1 == sid)) := by
    rcases h : db.students.find? (fun p => p.1 == sid) with - | pr <;>
      simp [V2.delete_student, h]
  refine ⟨?_, ?_, hdel2, ?_⟩
  · intro filt
    simp [V2.get_timeline_events, hdel2, List.filter_filter,
      Bool.and_not_self]
  · rcases h : db.students.find? (fun p => p.1 == sid) with - | pr
    · have : db.students.any (fun p => p.1 == sid) = false := by
        rw [Bool.eq_false_iff]
        intro hc
        rw [List.any_eq_true] at hc
        obtain ⟨p, hp, hpe⟩ := hc
        rw [List.find?_eq_none] at h
        exact absurd hpe (h p hp)
      simp [V2.delete_student, h, this]
    · have hmem := List.mem_of_find?_eq_some h
      have hpred := List.find?_some h
      have : db.students.any (fun p => p.1 == sid) = true :=
        List.any_eq_true.mpr ⟨pr, hmem, hpred⟩
      simp [V2.delete_student, h, this]
  · rcases h : db.students.find? (fun p => p.1 == sid) with - | pr
    · have : db.students.any (fun p => p.1 == sid) = false := by
        rw [Bool.eq_false_iff]
        intro hc
        rw [List.any_eq_true] at hc
        obtain ⟨p, hp, hpe⟩ := hc
        rw [List.find?_eq_none] at h
        exact absurd hpe (h p hp)
      simp [V2.delete_student, h, this]
    · have hmem := List.mem_of_find?_eq_some h
      have hpred := List.find?_some h
      have : db.students.any (fun p => p.1 == sid) = true :=
        List.any_eq_true.mpr ⟨pr, hmem, hpred⟩
      simp [V2.delete_student, h, this]

/-- Counterexample for C3: updating only `status` at call time 200 leaves
`last_active` at its prior value 100 — `StudentV2Service.update_student`
does not stamp `last_active = now` when the patch omits it, even though the
profile mutation (the status change) is applied. -/
theorem update_student_no_auto_stamp_counterexample :
    ((V2.update_student fixDb 200 "s1" fixStatusPatch).1.map
        (fun s => s.last_active)) = some 100 ∧
    ((V2.update_student fixDb 200 "s1" fixStatusPatch).1.map
        (fun s => s.status)) = some .applying ∧
    ¬((100 : Timestamp) = 200) := by
  decide

/-- C3 (amended): for an existing student, `update_student` applies exactly
the fields present in the patch (absent fields keep their prior values),
leaves the core identity fields unchanged regardless of patch contents, and
changes `last_active` only when the patch itself carries it; with an empty
patch the store is not written at all. -/
theorem update_student_partial_update_amended (db : V2.DB) (now : Timestamp)
    (sid : String) (u : V2.StudentUpdate) (pr : String × V2.StudentDoc)
    (h : db.students.find? (fun p => p.1 == sid) = some pr) :
    ((V2.applyUpdate pr.2 u).name = pr.2.name ∧
     (V2.applyUpdate pr.2 u).email = pr.2.email ∧
     (V2.applyUpdate pr.2 u).country = pr.2.country ∧
     (V2.applyUpdate pr.2 u).phone = pr.2.phone ∧
     (V2.applyUpdate pr.2 u).grade = pr.2.grade ∧
     (V2.applyUpdate pr.2 u).source = pr.2.source ∧
     (V2.applyUpdate pr.2 u).created_at = pr.2.created_at) ∧
    (u.status = none → (V2.applyUpdate pr.2 u).status = pr.2.status) ∧
    (u.last_active = none →
      (V2.applyUpdate pr.2 u).last_active = pr.2.last_active) ∧
    (u.last_contacted_at = none →
      (V2.applyUpdate pr.2 u).last_contacted_at = pr.2.last_contacted_at) ∧
    (u.high_intent = none →
      (V2.applyUpdate pr.2 u).high_intent = pr.2.high_intent) ∧
    (u.needs_essay_help = none →
      (V2.applyUpdate pr.2 u).needs_essay_help = pr.2.needs_essay_help) ∧
    (u.additional_data = none →
      (V2.applyUpdate pr.2 u).additional_data = pr.2.additional_data) ∧
    (∀ s, u.status = some s → (V2.applyUpdate pr.2 u).status = s.toStr) ∧
    (∀ t, u.last_active = some t →
      (V2.applyUpdate pr.2 u).last_active = t) ∧
    (∀ t, u.last_contacted_at = some t →
      (V2.applyUpdate pr.2 u).last_contacted_at = some t) ∧
    (∀ b, u.high_intent = some b →
      (V2.applyUpdate pr.2 u).high_intent = b) ∧
    (∀ b, u.needs_essay_help = some b →
      (V2.applyUpdate pr.2 u).needs_essay_help = b) ∧
    (∀ m, u.additional_data = some m →
      (V2.applyUpdate pr.2 u).additional_data = some m) ∧
    (u.isEmptyPatch = true → (V2.update_student db now sid u).2 = db) ∧
    (u.isEmptyPatch = false →
      (V2.update_student db now sid u).2.students
        = db.students.map
            (fun p => if p.1 == sid then (p.1, V2.applyUpdate pr.2 u) else p)) := by
  refine ⟨⟨rfl, rfl, rfl, rfl, rfl, rfl, rfl⟩, ?_, ?_, ?_, ?_, ?_, ?_,
    ?_, ?_, ?_, ?_, ?_, ?_, ?_, ?_⟩
  · intro h'; simp [V2.applyUpdate, h']
  · intro h'; simp [V2.applyUpdate, h']
  · intro h'; simp [V2.applyUpdate, h']
  · intro h'; simp [V2.applyUpdate, h']
  · intro h'; simp [V2.applyUpdate, h']
  · intro h'; simp [V2.applyUpdate, h']
  · intro s h'; simp [V2.applyUpdate, h']
  · intro t h'; simp [V2.applyUpdate, h']
  · intro t h'; simp [V2.applyUpdate, h']
  · intro b h'; simp [V2.applyUpdate, h']
  · intro b h'; simp [V2.applyUpdate, h']
  · intro m h'; simp [V2.applyUpdate, h']
  · intro hemp; simp [V2.update_student, h, hemp]
  · intro hemp; simp [V2.update_student, h, hemp]

/-- Witness for the amended C3: on the concrete store, a status-only patch
keeps `last_active`, applies the status, and leaves the email untouched. -/
theorem update_student_partial_update_amended_witness :
    (V2.applyUpdate fixDoc fixStatusPatch).last_active = fixDoc.last_active ∧
    (V2.applyUpdate fixDoc fixStatusPatch).status = "Applying" ∧
    (V2.applyUpdate fixDoc fixStatusPatch).email = fixDoc.email := by
  obtain ⟨⟨-, he, -, -, -, -, -⟩, -, hla0, -, -, -, -, hstS, -⟩ :=
    update_student_partial_update_amended fixDb 200 "s1" fixStatusPatch
      ("s1", fixDoc) (by decide)
  exact ⟨hla0 rfl, hstS .applying rfl, he⟩

/-- Counterexample for C4: with one reminder dated strictly before today and
one dated after, the spec-side date-only split counts one overdue and one
upcoming reminder, but `get_dashboard_stats` reports 0 for both — the split
is never computed (the source leaves both lists empty). -/
theorem dashboard_reminder_counts_counterexample :
    V2.specOverdueCount "2024-06-01" [fixOverdueRem, fixUpcomingRem] = 1 ∧
    V2.specUpcomingCount "2024-06-01" [fixOverdueRem, fixUpcomingRem] = 1 ∧
    (V2.get_dashboard_stats [] [fixOverdueRem, fixUpcomingRem]).overdue_reminders
      = 0 ∧
    (V2.get_dashboard_stats [] [fixOverdueRem, fixUpcomingRem]).upcoming_reminders
      = 0 ∧
    (V2.get_dashboard_stats [] [fixOverdueRem, fixUpcomingRem]).overdue_reminders
      ≠ V2.specOverdueCount "2024-06-01" [fixOverdueRem, fixUpcomingRem] ∧
    (V2.get_dashboard_stats [] [fixOverdueRem, fixUpcomingRem]).upcoming_reminders
      ≠ V2.specUpcomingCount "2024-06-01" [fixOverdueRem, fixUpcomingRem] := by
  decide

/-- C4 (amended): the dashboard statistics report `upcoming_reminders = 0`
and `overdue_reminders = 0` unconditionally (placeholder values — no
date-only split at today is performed); only `total_reminders` reflects the
stored standalone reminders. -/
theorem dashboard_reminder_counts_amended (students : List V2.Student)
    (reminders : List ReminderM) :
    (V2.get_dashboard_stats students reminders).upcoming_reminders = 0 ∧
    (V2.get_dashboard_stats students reminders).overdue_reminders = 0 ∧
    (V2.get_dashboard_stats students reminders).total_reminders
      = reminders.length :=
  ⟨rfl, rfl, rfl⟩

/-- C5: `get_timeline_events` returns exactly the student's timeline events
(restricted to the given type when a filter is supplied), in descending
`created_at` order; and `get_student_communications`, whose store query
cannot order natively, sorts in memory after fetch so the same descending
order holds for exactly the student's communication events. -/
theorem get_timeline_events_ordered (db : V2.DB) (sid : String)
    (filt : Option TimelineEventType) :
    List.Sorted V2.evGE (V2.get_timeline_events db sid filt) ∧
    (∀ e, e ∈ V2.get_timeline_events db sid filt ↔
      ∃ rec, rec ∈ db.timelines ∧ rec.1 = sid ∧
        V2.typeMatches filt rec.2.2 = true ∧
        e = docToEvent sid rec.2.1 rec.2.2) ∧
    List.Sorted V2.evGE (V2.get_student_communications db sid) ∧
    (∀ e, e ∈ V2.get_student_communications db sid ↔
      ∃ rec, rec ∈ db.timelines ∧ rec.1 = sid ∧
        rec.2.2.typeStr = "communication" ∧
        e = docToEvent sid rec.2.1 rec.2.2) := by
  refine ⟨?_, ?_, ?_, ?_⟩
  · show List.Sorted V2.evGE
      (((List.insertionSort V2.tlGE
          (db.timelines.filter (fun e => e.1 == sid))).filter
            (fun e => V2.typeMatches filt e.2.2)).map
        (fun e => docToEvent sid e.2.1 e.2.2))
    refine List.Pairwise.map _ ?_
      ((List.sorted_insertionSort V2.tlGE _).filter _)
    intro a b hab
    simpa [V2.evGE, V2.tlGE, docToEvent_created_at] using hab
  · intro e
    simp only [V2.get_timeline_events, List.mem_map, List.mem_filter,
      List.mem_insertionSort, beq_iff_eq]
    constructor
    · rintro ⟨x, ⟨⟨hx, hx1⟩, hxt⟩, rfl⟩
      exact ⟨x, hx, hx1, hxt, rfl⟩
    · rintro ⟨x, hx, hx1, hxt, rfl⟩
      exact ⟨x, ⟨⟨hx, hx1⟩, hxt⟩, rfl⟩
  · exact List.sorted_insertionSort V2.evGE _
  · intro e
    simp only [V2.get_student_communications, List.mem_insertionSort,
      List.mem_map, List.mem_filter, Bool.and_eq_true, beq_iff_eq]
    constructor
    · rintro ⟨x, ⟨hx, hx1, hxt⟩, rfl⟩
      exact ⟨x, hx, hx1, hxt, rfl⟩
    · rintro ⟨x, hx, hx1, hxt, rfl⟩
      exact ⟨x, ⟨hx, hx1, hxt⟩, rfl⟩

/-- C10: creating an interaction with a follow-up date and reading the
student's timeline back with the interaction type filter yields that record:
the returned interaction carries `follow_up_date = D`, `follow_up_required`
as given and `type = "interaction"`, and it is among the events read back. -/
theorem create_interaction_roundtrip (db : V2.DB) (now : Timestamp)
    (sid eid : String) (c : V2.InteractionCreate) :
    Event.interaction (V2.create_interaction db now sid eid c).1
      ∈ V2.get_timeline_events (V2.create_interaction db now sid eid c).2 sid
          (some .interaction) ∧
    (V2.create_interaction db now sid eid c).1.follow_up_date
      = c.follow_up_date ∧
    (V2.create_interaction db now sid eid c).1.follow_up_required
      = c.follow_up_required ∧
    (V2.create_interaction db now sid eid c).1.type = "interaction" := by
  refine ⟨?_, rfl, rfl, rfl⟩
  simp only [V2.get_timeline_events, V2.create_interaction, List.mem_map,
    List.mem_filter, List.mem_insertionSort, beq_iff_eq]
  exact ⟨(sid, eid, TimelineDoc.interaction now "CRM Team" c.interaction_type
      c.description c.outcome c.follow_up_required c.follow_up_date),
    ⟨⟨List.mem_append_right _ (List.mem_singleton.mpr rfl), rfl⟩, rfl⟩, rfl⟩

/-- C6: `search_students` returns exactly the students passing the
case-insensitive name/email/country substring match and the additional
filters (one conjunctive predicate), with `offset`/`limit` slicing applied
after filtering, `total` equal to the pre-pagination match count, and
`has_more` true iff `offset + limit < total`; on the concrete
Maria/Sarah/Hiroshi corpus, `search("a", {})` returns exactly the matching
subset. -/
theorem search_students_contract (now : Timestamp)
    (corpus : List Legacy.Student) (req : Legacy.SearchRequest) :
    ((Legacy.search_students now corpus req).students
      = ((corpus.filter (fun s => Legacy.textMatches (pyLower req.query) s
            && Legacy.addFilterOk now req s)).drop req.offset).take req.limit) ∧
    ((Legacy.search_students now corpus req).total
      = (corpus.filter (fun s => Legacy.textMatches (pyLower req.query) s
            && Legacy.addFilterOk now req s)).length) ∧
    ((Legacy.search_students now corpus req).has_more = true
      ↔ req.offset + req.limit < (Legacy.search_students now corpus req).total) ∧
    ((Legacy.search_students 0 [fixMaria, fixSarah, fixHiroshi]
        fixSearchReq).students = [fixMaria, fixSarah]) ∧
    ((Legacy.search_students 0 [fixMaria, fixSarah, fixHiroshi]
        fixSearchReq).total = 2) ∧
    ((Legacy.search_students 0 [fixMaria, fixSarah, fixHiroshi]
        fixSearchReq).has_more = false) := by
  have hcomm : corpus.filter
      (fun s => Legacy.addFilterOk now req s
        && Legacy.textMatches (pyLower req.query) s)
      = corpus.filter (fun s => Legacy.textMatches (pyLower req.query) s
          && Legacy.addFilterOk now req s) :=
    List.filter_congr (fun a _ => by rw [Bool.and_comm])
  refine ⟨?_, ?_, ?_, by decide, by decide, by decide⟩
  · simp only [Legacy.search_students]
    rw [List.filter_filter, hcomm]
  · simp only [Legacy.search_students]
    rw [List.filter_filter, hcomm]
  · simp [Legacy.search_students]

/-- C7: the `not_contacted_7_days` search filter keeps a student with no
`last_contacted_at`, and otherwise keeps the student exactly when more than
7 whole days (`timedelta.days`) have elapsed since last contact; on the
concrete corpus (never contacted / contacted 8 days ago / contacted 3 days
ago) the search returns exactly the first two. -/
theorem not_contacted_filter (now t : Timestamp) :
    (Legacy.notContactedOk now none = true) ∧
    (Legacy.notContactedOk now (some t) = true
      ↔ 7 < (now - t) / secondsPerDay) ∧
    ((Legacy.search_students fixNow
        [fixNeverContacted, fixContacted8d, fixContacted3d]
        fixNotContactedReq).students
      = [fixNeverContacted, fixContacted8d]) := by
  refine ⟨rfl, ?_, by decide⟩
  simp [Legacy.notContactedOk, Nat.not_le]

/-- Counterexample for C8: a stored status string outside the enum
(`"Closed"`) does not default to `Exploring` — `_doc_to_student` fails on it
(the Python `StudentStatus("Closed")` call raises `ValueError`). -/
theorem status_normalization_counterexample :
    parseStatus "Closed" = none ∧
    V2.docToStudent 0 fixRawStudentBadStatus
      = .error "invalid status: Closed" ∧
    (V2.docToStudent 0 fixRawStudentBadStatus).toOption = none := by
  exact ⟨rfl, rfl, rfl⟩

/-- C8 (amended): normalization parses `status` into the fixed enum and a
missing (or empty, hence falsy) status defaults to `Exploring`; but a
non-empty status string outside the enum makes normalization fail rather
than default. -/
theorem status_normalization_amended (now : Timestamp)
    (d : V2.RawStudentDoc) :
    (d.status = none →
      ∃ st, V2.docToStudent now d = .ok st ∧ st.status = .exploring) ∧
    (d.status = some "" →
      ∃ st, V2.docToStudent now d = .ok st ∧ st.status = .exploring) ∧
    (∀ s, d.status = some s → ¬(s = "") → parseStatus s = none →
      V2.docToStudent now d = .error ("invalid status: " ++ s)) ∧
    (∀ s stv, d.status = some s → ¬(s = "") → parseStatus s = some stv →
      ∃ st, V2.docToStudent now d = .ok st ∧ st.status = stv) := by
  refine ⟨?_, ?_, ?_, ?_⟩
  · intro h
    simp only [V2.docToStudent, h, pyOrStr]
    exact ⟨_, rfl, rfl⟩
  · intro h
    simp only [V2.docToStudent, h, pyOrStr, if_pos rfl]
    exact ⟨_, rfl, rfl⟩
  · intro s hs hne hp
    simp [V2.docToStudent, pyOrStr, hs, hne, hp]
  · intro s stv hs hne hp
    simp only [V2.docToStudent, pyOrStr, hs, if_neg hne, hp]
    exact ⟨_, rfl, rfl⟩

/-- Witness for the amended C8: on the concrete raw documents, a missing
status yields `Exploring` and the status `"Closed"` makes normalization
fail. -/
theorem status_normalization_amended_witness :
    (∃ st, V2.docToStudent 0 fixRawStudentNoStatus = .ok st ∧
      st.status = .exploring) ∧
    V2.docToStudent 0 fixRawStudentBadStatus
      = .error "invalid status: Closed" := by
  exact ⟨(status_normalization_amended 0 fixRawStudentNoStatus).1 rfl,
    (status_normalization_amended 0 fixRawStudentBadStatus).2.2.1 "Closed"
      rfl (by decide) rfl⟩

/-- Counterexample for C9: the normalized reminder date is not always
date-only.  A string stored under `reminder_date` is kept as is even when it
carries a time component, and a legacy `due` value is used exactly as stored
— here a `datetime` at 10:30, which retains its time-of-day. -/
theorem reminder_date_normalization_counterexample :
    (V2.docToReminder 0 fixRemStrTime).reminder_date
      = .s "2024-06-01T10:30:00" ∧
    (V2.docToReminder 0 fixRemStrTime).reminder_date.isDateOnlyRepr
      = false ∧
    (V2.docToReminder 0 fixRemDueDt).reminder_date
      = .dt "2024-01-01" 37800 ∧
    (V2.docToReminder 0 fixRemDueDt).reminder_date.isDateOnlyRepr
      = false := by
  refine ⟨rfl, by decide, rfl, rfl⟩

/-- C9 (amended): `_doc_to_reminder` accepts the reminder date from either
the `reminder_date` key (which takes precedence) or the legacy `due` key; a
`datetime`-typed `reminder_date` is normalized to its date-only string, but
a string `reminder_date` is passed through unchanged and a legacy `due`
value is used exactly as stored (no date normalization), with a fixed
fallback date when both keys are absent — so the output is date-only only
when the stored value was a `datetime` under `reminder_date` or was itself
already date-only. -/
theorem reminder_date_normalization_amended (now : Timestamp)
    (d : V2.RawReminderDoc) :
    (∀ day secs, d.reminder_date = some (.dt day secs) →
      (V2.docToReminder now d).reminder_date = .s day) ∧
    (∀ str, d.reminder_date = some (.s str) →
      (V2.docToReminder now d).reminder_date = .s str) ∧
    (∀ v, d.reminder_date = none → d.due = some v →
      (V2.docToReminder now d).reminder_date = v) ∧
    (d.reminder_date = none → d.due = none →
      (V2.docToReminder now d).reminder_date = .s "2024-01-01") := by
  refine ⟨?_, ?_, ?_, ?_⟩
  · intro day secs h
    simp [V2.docToReminder, h, rvalNormalize]
  · intro str h
    simp [V2.docToReminder, h, rvalNormalize]
  · intro v h h'
    simp [V2.docToReminder, h, h']
  · intro h h'
    simp [V2.docToReminder, h, h']

/-- Witness for the amended C9: on the concrete raw reminders, a `datetime`
under `reminder_date` comes out as its date string, and a legacy `due`
value comes out exactly as stored. -/
theorem reminder_date_normalization_amended_witness :
    (V2.docToReminder 0 fixRemDt).reminder_date = .s "2024-03-05" ∧
    (V2.docToReminder 0 fixRemDueDt).reminder_date
      = .dt "2024-01-01" 37800 ∧
    (V2.docToReminder 0 fixRawRem).reminder_date = .s "2024-01-01" := by
  exact ⟨(reminder_date_normalization_amended 0 fixRemDt).1 "2024-03-05"
      3600 rfl,
    (reminder_date_normalization_amended 0 fixRemDueDt).2.2.1
      (.dt "2024-01-01" 37800) rfl rfl,
    (reminder_date_normalization_amended 0 fixRawRem).2.2.2 rfl rfl⟩

end CRM
